import Mathlib

/-!
Shallow embedding of the stock-project repository (guchao0318/stock-project)
and proofs about its specification claims.

The embedding translates the Python sources under `src/` into executable Lean
definitions.  Keyword-argument calls in Python resolve parameter names at call
time, so a call site supplying a keyword that the callee does not declare
raises `TypeError`; likewise an attribute access for a method that the class
does not define raises `AttributeError`.  Both are modelled explicitly: each
embedded callee carries the list of parameter (or method) names taken verbatim
from its `def`/`class` statement in the source, and each embedded call site
checks its own keyword names against that list, taking the exception branch of
the surrounding `try/except` when the names do not match.
-/

namespace StockProject

/-! ## Python-semantics helpers -/

/-- Python truthiness of an optional string argument (`None` and `""` are falsy). -/
def truthy : Option String → Bool
  | none => false
  | some s => !(s == "")

/-- Strict lexicographic order on character lists (by code point), the order
in which the storage engine compares keyword/date fields and pandas compares
date strings. -/
def charListLt : List Char → List Char → Bool
  | [], [] => false
  | [], _ :: _ => true
  | _ :: _, [] => false
  | a :: as, b :: bs =>
    decide (a.toNat < b.toNat) || (decide (a.toNat = b.toNat) && charListLt as bs)

/-- Non-strict lexicographic order on character lists. -/
def charListLe : List Char → List Char → Bool
  | [], _ => true
  | _ :: _, [] => false
  | a :: as, b :: bs =>
    decide (a.toNat < b.toNat) || (decide (a.toNat = b.toNat) && charListLe as bs)

/-- Strict lexicographic order on strings. -/
def strLt (a b : String) : Bool := charListLt a.data b.data

/-- Non-strict lexicographic order on strings. -/
def strLe (a b : String) : Bool := charListLe a.data b.data

/-- Truncation of a rational toward zero, the behaviour of Python `int(float(x))`. -/
def ratTrunc (q : ℚ) : ℤ := Int.tdiv q.num q.den

/-- `int(float(x) * 100)` applied to an optional numeric cell, with the
source's `if pd.notna(...) else 0` fallback. -/
def scale100 : Option ℚ → ℤ
  | none => 0
  | some q => ratTrunc (q * 100)

/-- Round-half-to-even on a rational, the behaviour of Python `round(x)`. -/
def roundHalfEven (q : ℚ) : ℤ :=
  let f := ⌊q⌋
  let r := q - (f : ℚ)
  if r < 1/2 then f
  else if (1:ℚ)/2 < r then f + 1
  else if f % 2 = 0 then f else f + 1

/-- Python `round(x, 2)`. -/
def pyRound2 (q : ℚ) : ℚ := (roundHalfEven (q * 100) : ℚ) / 100

/-! ## Calendar dates

`datetime.strptime(s, "%Y-%m-%d")` accepts a 4-digit year, a 1-or-2-digit
month in `1..12`, and a 1-or-2-digit day in `1..31` separated by literal
dashes consuming the whole string, then the `datetime` constructor further
requires `year ≥ 1` and the day to fit the month (with leap years). -/

/-- Split a character list on `'-'` separators (like Python `s.split('-')`). -/
def splitDash : List Char → List (List Char)
  | [] => [[]]
  | '-' :: rest => [] :: splitDash rest
  | c :: rest =>
    match splitDash rest with
    | g :: gs => (c :: g) :: gs
    | [] => [[c]]

/-- Numeric value of a list of decimal digit characters. -/
def digitsVal (cs : List Char) : ℕ :=
  cs.foldl (fun n c => n * 10 + (c.toNat - '0'.toNat)) 0

def allDigits (cs : List Char) : Bool := cs.all (·.isDigit)

def isLeapYear (y : ℕ) : Bool := y % 4 = 0 && (y % 100 != 0 || y % 400 = 0)

def daysInMonth (y m : ℕ) : ℕ :=
  if m = 2 then (if isLeapYear y then 29 else 28)
  else if m = 4 ∨ m = 6 ∨ m = 9 ∨ m = 11 then 30
  else 31

/-- `datetime.strptime(s, "%Y-%m-%d")` as a partial parse to `(year, month, day)`. -/
def parseYmd (s : String) : Option (ℕ × ℕ × ℕ) :=
  match splitDash s.toList with
  | [ys, ms, ds] =>
    if ys.length = 4 ∧ allDigits ys ∧
       1 ≤ ms.length ∧ ms.length ≤ 2 ∧ allDigits ms ∧
       1 ≤ ds.length ∧ ds.length ≤ 2 ∧ allDigits ds then
      let y := digitsVal ys
      let m := digitsVal ms
      let d := digitsVal ds
      if 1 ≤ y ∧ 1 ≤ m ∧ m ≤ 12 ∧ 1 ≤ d ∧ d ≤ daysInMonth y m then
        some (y, m, d)
      else none
    else none
  | _ => none

/-- `HistoryCollectRequest._is_valid_date` from `src/app/models/request_models.py`:
true iff `strptime(date_str, "%Y-%m-%d")` does not raise. -/
def is_valid_date (s : String) : Bool := (parseYmd s).isSome

/-- Order-preserving numeric key of a parsed date, used to compare the two
`datetime` values of lines 37-41 of `request_models.py` (0 for unparsable input;
the comparison is only reached after both dates validated). -/
def dateVal (s : String) : ℕ :=
  match parseYmd s with
  | some (y, m, d) => y * 10000 + m * 100 + d
  | none => 0

def pad2 (n : ℕ) : String := if n < 10 then "0" ++ toString n else toString n

def pad4 (n : ℕ) : String :=
  if n < 10 then "000" ++ toString n
  else if n < 100 then "00" ++ toString n
  else if n < 1000 then "0" ++ toString n
  else toString n

/-- `(dt - timedelta(days=1)).strftime('%Y-%m-%d')` on a parsed date. -/
def prevDayStr (y m d : ℕ) : String :=
  if 2 ≤ d then pad4 y ++ "-" ++ pad2 m ++ "-" ++ pad2 (d - 1)
  else if 2 ≤ m then pad4 y ++ "-" ++ pad2 (m - 1) ++ "-" ++ pad2 (daysInMonth y (m - 1))
  else pad4 (y - 1) ++ "-12-31"

/-! ## Data model -/

/-- A daily-bar document (`DailyBarRecord`), one per symbol per trading date.
Prices/amounts are the ×100-scaled integers the collectors produce.  The
impure `update_time` / `created_at` / `data_source` stamps are not modelled. -/
structure DailyBar where
  date : String
  stock_code : String
  market_type : String
  open_price : ℤ
  close_price : ℤ
  high_price : ℤ
  low_price : ℤ
  prev_close_price : ℤ
  volume : ℤ
  amount : ℤ
  change_percent : ℤ
  change_amount : ℤ
  turnover_rate : ℤ
  deriving Repr, DecidableEq

def dummyBar : DailyBar :=
  ⟨"", "", "", 0, 0, 0, 0, 0, 0, 0, 0, 0, 0⟩

/-- An incoming quote message consumed by the streaming strategy job.
A missing `stock_code`/`date` (`dict.get` returning `None`) is modelled as
`""`, which is equally falsy in the source's guard. -/
structure QuoteMsg where
  stock_code : String
  date : String
  market_type : String
  close_price : ℤ
  deriving Repr, DecidableEq

/-- A nine-turn signal document as assembled by `_execute_nine_turn_strategy`
(line 105-114 of `nine_turn_strategy.py`); `created_at` is not modelled. -/
structure StrategyData where
  date : String
  stock_code : String
  market_type : String
  current_price : ℤ
  compare_price : ℤ
  price_diff : ℤ
  price_diff_percent : ℚ
  deriving Repr, DecidableEq

/-! ## `src/core/data_storage/daily_storage.py` — class `DailyDataStorage` -/

/-- The method names defined in `class DailyDataStorage`.  Python resolves
`storage.<name>` against this namespace; any other name raises
`AttributeError`. -/
def dailyDataStorageMethodNames : List String :=
  ["__init__", "_ensure_index_exists", "save_daily_data", "search_daily_data",
   "get_daily_data_count", "delete_daily_data", "get_stock_date_range", "close"]

/-- The parameter names of `DailyDataStorage.search_daily_data` (line 145-146),
besides `self`.  A keyword call with any other name raises `TypeError`. -/
def searchDailyDataParamNames : List String :=
  ["stock_code", "start_date", "end_date", "market_type", "size", "sort_by_date"]

/-- Does a keyword-argument call with the given names bind against
`search_daily_data`'s parameter list? -/
def searchCallAccepts (kwargNames : List String) : Bool :=
  kwargNames.all (· ∈ searchDailyDataParamNames)

/-- The boolean filter of `search_daily_data` lines 167-187: term on
`stock_code`, term on `market_type`, and a `gte`/`lte` range on `date`
(each condition only present when its argument is truthy; no condition
at all degenerates to match-all). -/
def dailyQueryMatches (stock_code market_type start_date end_date : Option String)
    (d : DailyBar) : Bool :=
  (!truthy stock_code || d.stock_code == stock_code.getD "") &&
  (!truthy market_type || d.market_type == market_type.getD "") &&
  (!truthy start_date || strLe (start_date.getD "") d.date) &&
  (!truthy end_date || strLe d.date (end_date.getD ""))

/-- The sort of `search_daily_data` lines 190-193: `date` descending, then
`stock_code` ascending. -/
def dailySortRel (a b : DailyBar) : Prop :=
  (strLt b.date a.date || (a.date == b.date && strLe a.stock_code b.stock_code)) = true

instance : DecidableRel dailySortRel := fun a b => by
  unfold dailySortRel; infer_instance

/-- `DailyDataStorage.search_daily_data` (lines 145-221) over an index modelled
as a list of documents: boolean filter, optional `date desc, stock_code asc`
sort, truncation to `size` hits. -/
def search_daily_data (index : List DailyBar)
    (stock_code start_date end_date market_type : Option String)
    (size : ℕ) (sort_by_date : Bool) : List DailyBar :=
  let hits := index.filter (dailyQueryMatches stock_code market_type start_date end_date)
  let sorted := if sort_by_date then hits.insertionSort dailySortRel else hits
  sorted.take size

/-- `DailyDataStorage.delete_daily_data` (lines 269-318): with no truthy filter
condition it refuses (no delete issued, returns `False`); otherwise it deletes
every matching document and returns `True` regardless of the matched count. -/
def delete_daily_data (index : List DailyBar)
    (stock_code start_date end_date : Option String) : List DailyBar × Bool :=
  if !truthy stock_code && !truthy start_date && !truthy end_date then
    (index, false)
  else
    (index.filter (fun d => !dailyQueryMatches stock_code none start_date end_date d), true)

/-! ## `src/core/flink/nine_turn_strategy.py` — class `StockDataProcessor` -/

/-- The keyword names `StockDataProcessor._get_historical_data` supplies in its
call to `search_daily_data` (lines 144-150). -/
def getHistoricalDataCallKwargs : List String :=
  ["stock_code", "size", "sort_by_date", "ascending", "end_date"]

/-- `StockDataProcessor._get_historical_data` (lines 127-156): computes the day
before `current_date` and queries the daily index.  An unparsable date, or the
`TypeError` raised because the call passes the keyword `ascending` which
`search_daily_data` does not declare, is caught by the surrounding handler,
which returns `[]`. -/
def get_historical_data (index : List DailyBar)
    (stock_code current_date : String) (days : ℕ) : List DailyBar :=
  match parseYmd current_date with
  | none => []
  | some (y, m, d) =>
    let end_date := prevDayStr y m d
    if searchCallAccepts getHistoricalDataCallKwargs then
      search_daily_data index (some stock_code) none (some end_date) none days true
    else []

/-- `StockDataProcessor._execute_nine_turn_strategy` (lines 73-125): guards on
the quote's fields, fetches the 4-record lookback, compares the current price
against the earliest returned close, and builds the signal document when the
condition fires. -/
def execute_nine_turn_strategy (index : List DailyBar) (current : QuoteMsg) :
    Option StrategyData :=
  if current.stock_code == "" || current.date == "" || current.close_price ≤ 0 then
    none
  else
    let historical := get_historical_data index current.stock_code current.date 4
    if historical.isEmpty then none
    else
      let first_close := ((historical.head?).map (·.close_price)).getD 0
      if first_close ≤ 0 then none
      else if first_close < current.close_price then
        some
          { date := current.date
            stock_code := current.stock_code
            market_type := current.market_type
            current_price := current.close_price
            compare_price := first_close
            price_diff := current.close_price - first_close
            price_diff_percent :=
              pyRound2 (((current.close_price : ℚ) - (first_close : ℚ)) / (first_close : ℚ) * 10000) }
      else none

/-! ## `src/core/data_storage/es_storage.py` — class `ElasticsearchStorage` -/

/-- The method names defined in `class ElasticsearchStorage`. -/
def elasticsearchStorageMethodNames : List String :=
  ["__init__", "_connect", "_ensure_index_exists", "_prepare_bulk_data",
   "clear_index", "save_stock_data", "get_stock_count", "search_stock",
   "get_all_stock_codes", "close"]

/-- The parameter names of `ElasticsearchStorage.get_all_stock_codes`
(line 257), besides `self`. -/
def getAllStockCodesParamNames : List String := ["market_type"]

/-- `ElasticsearchStorage.get_all_stock_codes` (lines 257-331) over a basic
index modelled as `(stock_code, market_type)` pairs: optional market filter,
scroll accumulation of the code field, de-duplication. -/
def get_all_stock_codes (basicIndex : List (String × String))
    (market_type : Option String) : List String :=
  let filtered :=
    match market_type with
    | some mt => basicIndex.filter (fun (p : String × String) => p.2 == mt)
    | none => basicIndex
  (filtered.map Prod.fst).dedup

/-! ## `src/app/services/stock_service.py` — class `StockService` -/

/-- `StockService.get_stock_codes` (lines 111-142): the call
`es_storage.get_all_stock_codes(limit=request.limit)` supplies the keyword
`limit`, which `get_all_stock_codes` does not declare, so it raises
`TypeError`; the handler logs and re-raises `Exception`. -/
def stock_service_get_stock_codes (basicIndex : List (String × String))
    (limit : ℕ) : Except String (List String) :=
  if ["limit"].all (· ∈ getAllStockCodesParamNames) then
    Except.ok (get_all_stock_codes basicIndex none)
  else
    Except.error "get stock codes failed: TypeError: unexpected keyword argument limit"

/-- The health report shape returned by `StockService.health_check`:
`components` carries the `(elasticsearch, scheduler)` labels of the normal
branch (lines 164-171); the exception branch (lines 173-179) carries only an
error string. -/
structure HealthReport where
  status : String
  components : Option (String × String)
  errorMsg : Option String
  deriving Repr, DecidableEq

/-- `StockService.health_check` (lines 144-179), parameterised by the outcome
that the storage ping and the scheduler-construction probe would have, had
they been reached.  The call `es_storage.check_connection()` names a method
`ElasticsearchStorage` does not define, so it raises `AttributeError` and the
outer handler returns the error-shaped unhealthy report. -/
def stock_service_health_check (esPingOk schedulerOk : Bool) : HealthReport :=
  if "check_connection" ∈ elasticsearchStorageMethodNames then
    let status := if esPingOk && schedulerOk then "healthy" else "unhealthy"
    { status := status
      components := some ((if esPingOk then "healthy" else "unhealthy"),
                          (if schedulerOk then "healthy" else "unhealthy"))
      errorMsg := none }
  else
    { status := "unhealthy"
      components := none
      errorMsg := some "AttributeError: ElasticsearchStorage object has no attribute check_connection" }

/-! ## `src/core/data_collector/history_collector.py` — class `HistoryDataCollector` -/

/-- One raw daily row as fetched from the upstream day-bar endpoint; numeric
cells are optional to model `pd.notna` (missing/NaN ↦ `none`). -/
structure RawDailyRow where
  date : String
  openPx : Option ℚ
  closePx : Option ℚ
  highPx : Option ℚ
  lowPx : Option ℚ
  volume : Option ℚ
  amount : Option ℚ
  change_percent : Option ℚ
  change_amount : Option ℚ
  turnover_rate : Option ℚ
  deriving Repr, DecidableEq

/-- The per-row conversion of `process_history_data` (lines 101-121), with the
carried previous close. -/
def rowToBar (stock_code market_type : String) (prev_close : ℤ) (r : RawDailyRow) :
    DailyBar :=
  { date := r.date
    stock_code := stock_code
    market_type := market_type
    open_price := scale100 r.openPx
    close_price := scale100 r.closePx
    high_price := scale100 r.highPx
    low_price := scale100 r.lowPx
    prev_close_price := prev_close
    volume := scale100 r.volume
    amount := scale100 r.amount
    change_percent := scale100 r.change_percent
    change_amount := scale100 r.change_amount
    turnover_rate := scale100 r.turnover_rate }

/-- The iteration of `process_history_data` lines 98-130 over the date-sorted
rows, threading `prev_close` (seeded 0 by the caller) through the converted
closes. -/
def processRows (stock_code market_type : String) :
    List RawDailyRow → ℤ → List DailyBar
  | [], _ => []
  | r :: rs, prev_close =>
    let item := rowToBar stock_code market_type prev_close r
    item :: processRows stock_code market_type rs item.close_price

/-- The ascending-date row order of `df.sort_values('日期')` (line 96). -/
def rowDateLe (a b : RawDailyRow) : Prop := strLe a.date b.date = true

instance : DecidableRel rowDateLe := fun a b => by
  unfold rowDateLe; infer_instance

instance : IsTotal RawDailyRow rowDateLe where
  total a b := by
    unfold rowDateLe strLe
    generalize a.date.data = as
    generalize b.date.data = bs
    induction as generalizing bs with
    | nil => exact Or.inl rfl
    | cons x xs ih =>
      cases bs with
      | nil => exact Or.inr rfl
      | cons y ys =>
        simp only [charListLe, Bool.or_eq_true, Bool.and_eq_true, decide_eq_true_eq]
        rcases Nat.lt_trichotomy x.toNat y.toNat with h | h | h
        · exact Or.inl (Or.inl h)
        · rcases ih ys with h2 | h2
          · exact Or.inl (Or.inr ⟨h, h2⟩)
          · exact Or.inr (Or.inr ⟨h.symm, h2⟩)
        · exact Or.inr (Or.inl h)

instance : IsTrans RawDailyRow rowDateLe where
  trans a b c hab hbc := by
    unfold rowDateLe strLe at *
    revert hab hbc
    generalize a.date.data = as
    generalize b.date.data = bs
    generalize c.date.data = cs
    intro hab hbc
    induction as generalizing bs cs with
    | nil => rfl
    | cons x xs ih =>
      cases bs with
      | nil => exact absurd hab (by simp [charListLe])
      | cons y ys =>
        cases cs with
        | nil => exact absurd hbc (by simp [charListLe])
        | cons z zs =>
          simp only [charListLe, Bool.or_eq_true, Bool.and_eq_true,
            decide_eq_true_eq] at *
          rcases hab with h1 | ⟨e1, r1⟩
          · rcases hbc with h2 | ⟨e2, _⟩
            · exact Or.inl (h1.trans h2)
            · exact Or.inl (e2 ▸ h1)
          · rcases hbc with h2 | ⟨e2, r2⟩
            · exact Or.inl (e1 ▸ h2)
            · exact Or.inr ⟨e1.trans e2, ih ys zs r1 r2⟩

/-- `HistoryDataCollector.process_history_data` (lines 77-133): sorts the raw
rows by date ascending, then converts each row, chaining the previous close
(first record's previous close is 0). -/
def process_history_data (rows : List RawDailyRow)
    (stock_code market_type : String) : List DailyBar :=
  processRows stock_code market_type (rows.insertionSort rowDateLe) 0

/-- Outcome of `get_stock_history_data` for one symbol plus the surrounding
per-symbol `try` body: the fetch yields a frame (`fetched`), yields nothing
after its internal retries (`empty`), or an exception escapes into the
per-symbol handler (`raised`). -/
inductive SymbolOutcome where
  | fetched (rows : List RawDailyRow)
  | empty
  | raised
  deriving Repr, DecidableEq

/-- Whether a symbol's outcome takes the success branch
(`df is not None and not df.empty`). -/
def outcomeOk : SymbolOutcome → Bool
  | .fetched rows => !rows.isEmpty
  | .empty => false
  | .raised => false

/-- The market-type prefix heuristic of `collect_history_data_by_codes`
line 298. -/
def marketOfCode (code : String) : String :=
  if code.startsWith "000" || code.startsWith "002" || code.startsWith "300" then "SZ"
  else "SH"

/-- `range(0, total, batch_size)` chunking (fuel-indexed so the recursion is
structural; callers pass `fuel = l.length`). -/
def chunksGo (n : ℕ) : ℕ → List α → List (List α)
  | 0, _ => []
  | _, [] => []
  | fuel + 1, l => l.take n :: chunksGo n fuel (l.drop n)

def chunks (n : ℕ) (l : List α) : List (List α) := chunksGo n l.length l

/-- The per-batch inner loop shared by lines 209-245 and 291-327: folds the
batch's items, tallying success/failure per symbol and accumulating the
processed records, then flushes the accumulated batch data to
`save_daily_data` (lines 235-245 / 316-327), whose boolean result is only
logged and never feeds back into the tally. -/
def batchStep (fetch : String → SymbolOutcome) (codeOf mtOf : α → String)
    (st : ℕ × ℕ × List DailyBar) (item : α) : ℕ × ℕ × List DailyBar :=
  match fetch (codeOf item) with
  | .fetched rows =>
    if rows.isEmpty then (st.1, st.2.1 + 1, st.2.2)
    else
      (st.1 + 1, st.2.1,
       st.2.2 ++ process_history_data rows (codeOf item) (mtOf item))
  | .empty => (st.1, st.2.1 + 1, st.2.2)
  | .raised => (st.1, st.2.1 + 1, st.2.2)

def runBatch (fetch : String → SymbolOutcome) (save : List DailyBar → Bool)
    (codeOf : α → String) (mtOf : α → String)
    (batch : List α) (acc : ℕ × ℕ) : ℕ × ℕ :=
  let st := batch.foldl (batchStep fetch codeOf mtOf) (acc.1, acc.2, [])
  let _ := if st.2.2.isEmpty then true else save st.2.2
  (st.1, st.2.1)

/-- The `{success, failed, total}` tally returned by both backfill entry
points. -/
structure Tally where
  success : ℕ
  failed : ℕ
  total : ℕ
  deriving Repr, DecidableEq

/-- `HistoryDataCollector.collect_history_data_by_codes` (lines 256-336) with
`batch_size = 50` (the declared default, used by every in-repo caller):
empty code list aborts with a zero tally; otherwise symbols are processed in
batches of 50, counted per symbol, with each batch flushed to storage. -/
def collect_history_data_by_codes (fetch : String → SymbolOutcome)
    (save : List DailyBar → Bool) (start_date end_date : String)
    (stock_codes : List String) : Tally :=
  if stock_codes.isEmpty then ⟨0, 0, 0⟩
  else
    let acc := (chunks 50 stock_codes).foldl
      (fun acc batch => runBatch fetch save id marketOfCode batch acc) (0, 0)
    ⟨acc.1, acc.2, stock_codes.length⟩

/-- `HistoryDataCollector.collect_all_history_data` (lines 174-254) with
`batch_size = 50`: the symbol universe is the list of
`(stock_code, market_type)` pairs resolved from the basic index; an empty
universe aborts with a zero tally. -/
def collect_all_history_data (fetch : String → SymbolOutcome)
    (save : List DailyBar → Bool) (start_date end_date : String)
    (stock_list : List (String × String)) : Tally :=
  if stock_list.isEmpty then ⟨0, 0, 0⟩
  else
    let acc := (chunks 50 stock_list).foldl
      (fun acc batch => runBatch fetch save Prod.fst Prod.snd batch acc) (0, 0)
    ⟨acc.1, acc.2, stock_list.length⟩

/-! ## `src/core/data_collector/realtime_collector.py` — class `RealtimeDataCollector` -/

/-- The result dictionary of `collect_all_realtime_data` (lines 153-159)
together with the records actually republished to the bus producer by
`_send_to_kafka` (lines 204-217). -/
structure RealtimeResult where
  total : ℕ
  success : ℕ
  failed : ℕ
  sz_count : ℕ
  sh_count : ℕ
  kafkaSent : List DailyBar
  deriving Repr, DecidableEq

/-- `RealtimeDataCollector.collect_all_realtime_data` (lines 147-202),
parameterised by the processed per-market record lists (`none` models a market
whose fetch returned nothing) and by the outcome the batch save would have had.
The save call `self.daily_storage.save_daily_data_batch(all_data)` (line 187)
names a method `DailyDataStorage` does not define, so it raises
`AttributeError`; the handler at line 198 then sets `failed = total`, and no
record reaches the bus producer. -/
def collect_all_realtime_data (sz sh : Option (List DailyBar))
    (saveWouldSucceed : Bool) : RealtimeResult :=
  let sz_processed := sz.getD []
  let sh_processed := sh.getD []
  let all_data := sz_processed ++ sh_processed
  let total := all_data.length
  if all_data.isEmpty then
    { total := total, success := 0, failed := 0,
      sz_count := sz_processed.length, sh_count := sh_processed.length,
      kafkaSent := [] }
  else if "save_daily_data_batch" ∈ dailyDataStorageMethodNames then
    if saveWouldSucceed then
      { total := total, success := total, failed := 0,
        sz_count := sz_processed.length, sh_count := sh_processed.length,
        kafkaSent := all_data }
    else
      { total := total, success := 0, failed := total,
        sz_count := sz_processed.length, sh_count := sh_processed.length,
        kafkaSent := [] }
  else
    { total := total, success := 0, failed := total,
      sz_count := sz_processed.length, sh_count := sh_processed.length,
      kafkaSent := [] }

/-! ## `src/app/models/request_models.py` -/

/-- `HistoryCollectRequest._is_valid_stock_code`: `re.match(r'^\d\x7b6\x7d$', code)`
— exactly six decimal digits. -/
def isValidStockCode (code : String) : Bool :=
  code.length = 6 && code.toList.all (·.isDigit)

/-- A validated `HistoryCollectRequest`. -/
structure HistoryCollectRequest where
  start_date : String
  end_date : String
  stock_codes : Option (List String)
  adjust_flag : String
  deriving Repr, DecidableEq

/-- `HistoryCollectRequest.__post_init__` / `validate` (lines 23-51):
construction validates the two dates, their order, the adjustment flag, and —
when a truthy code list is supplied — every symbol code, raising `ValueError`
(modelled as `Except.error`) at the first violation. -/
def mkHistoryCollectRequest (start_date end_date : String)
    (stock_codes : Option (List String)) (adjust_flag : String) :
    Except String HistoryCollectRequest :=
  if !is_valid_date start_date then
    Except.error "start_date format error, expected YYYY-MM-DD"
  else if !is_valid_date end_date then
    Except.error "end_date format error, expected YYYY-MM-DD"
  else if dateVal end_date < dateVal start_date then
    Except.error "start_date cannot be later than end_date"
  else if adjust_flag ∉ ["qfq", "hfq", "none"] then
    Except.error "adjust_flag must be one of qfq, hfq, none"
  else if (stock_codes.getD []).any (fun c => !isValidStockCode c) then
    Except.error "stock code format error"
  else
    Except.ok
      { start_date := start_date, end_date := end_date,
        stock_codes := stock_codes, adjust_flag := adjust_flag }

/-! ## Concrete fixtures used by witnesses and counterexample evaluations -/

/-- A persisted prior bar for symbol `000001` with close `1000` (×100). -/
def priorBar : DailyBar :=
  { dummyBar with date := "2025-09-15", stock_code := "000001", close_price := 1000 }

/-- A second, later prior bar for symbol `000001`. -/
def priorBarLater : DailyBar :=
  { dummyBar with date := "2025-09-16", stock_code := "000001", close_price := 1020 }

/-- An incoming quote with close `1050` for which the specification expects a
nine-turn signal against the `1000` lookback close. -/
def exQuote : QuoteMsg :=
  { stock_code := "000001", date := "2025-09-18", market_type := "SZ", close_price := 1050 }

/-- The spec's previous-close-chaining example: one symbol, three ordered rows
with closes `10.00, 10.50, 9.80`. -/
def exRows : List RawDailyRow :=
  [⟨"2025-01-01", some 10, some 10, some 10, some 10, some 1, some 1, some 1, some 1, some 1⟩,
   ⟨"2025-01-02", some 10.5, some 10.5, some 10.5, some 10.5, some 1, some 1, some 1, some 1, some 1⟩,
   ⟨"2025-01-03", some 9.8, some 9.8, some 9.8, some 9.8, some 1, some 1, some 1, some 1, some 1⟩]

/-- The spec's 3-symbol tally example: the fetch succeeds for two symbols and
returns empty for `000003`. -/
def exFetch : String → SymbolOutcome := fun c =>
  if c == "000003" then .empty else .fetched exRows

/-! # Theorems -/

/-- The lookback fetch of the streaming job always returns `[]`: its
`search_daily_data` call passes the undeclared keyword `ascending`, the
resulting `TypeError` is caught, and the handler returns the empty list. -/
theorem get_historical_data_eq_nil (index : List DailyBar) (sc cd : String) (n : ℕ) :
    get_historical_data index sc cd n = [] := by
  unfold get_historical_data
  cases h : parseYmd cd with
  | none => rfl
  | some t =>
    obtain ⟨y, m, d⟩ := t
    have hacc : searchCallAccepts getHistoricalDataCallKwargs = false := by decide
    simp [hacc]

/-- C1: the streaming strategy job never emits a nine-turn signal: for every
index state and every incoming quote, `_execute_nine_turn_strategy` returns
`None`, because its history lookup always fails with a `TypeError` (the
`ascending` keyword is not a parameter of `search_daily_data`), is caught, and
yields an empty lookback.  This contradicts the claimed signal emission for a
quote whose close exceeds the earliest prior close. -/
theorem c1_nine_turn_never_emits (index : List DailyBar) (current : QuoteMsg) :
    execute_nine_turn_strategy index current = none := by
  unfold execute_nine_turn_strategy
  split
  · rfl
  · simp [get_historical_data_eq_nil]

/-- C2: `search_daily_data` does not accept an `ascending` flag — the keyword
names used by the two in-repo callers (`_get_previous_close_price` and
`_get_historical_data`) do not bind against its declared parameter list, so
both calls raise `TypeError`; and with `sort_by_date` set the sort direction
is hard-coded descending (on a two-bar index the later date comes first). -/
theorem c2_search_has_no_ascending_param :
    searchCallAccepts ["stock_code", "size", "sort_by_date", "ascending"] = false ∧
    searchCallAccepts getHistoricalDataCallKwargs = false ∧
    (search_daily_data [priorBar, priorBarLater] (some "000001") none none none 100 true).map
        (fun b => b.date) = ["2025-09-16", "2025-09-15"] := by
  refine ⟨by decide, by decide, by decide⟩

/-- C3: every realtime collection cycle takes the exception branch: the batch
save call names `save_daily_data_batch`, which `DailyDataStorage` does not
define, so the `AttributeError` is caught, `failed` is set to `total`,
`success` stays `0`, and nothing is republished to the bus — regardless of the
fetched data and of whether the underlying save would have succeeded. -/
theorem c3_realtime_save_always_fails (sz sh : Option (List DailyBar)) (b : Bool) :
    (collect_all_realtime_data sz sh b).success = 0 ∧
    (collect_all_realtime_data sz sh b).failed = (collect_all_realtime_data sz sh b).total ∧
    (collect_all_realtime_data sz sh b).kafkaSent = [] := by
  have hmem : "save_daily_data_batch" ∉ dailyDataStorageMethodNames := by decide
  unfold collect_all_realtime_data
  by_cases h : ((sz.getD []) ++ (sh.getD [])).isEmpty
  · simp [h, List.isEmpty_iff.mp h]
  · simp [h, hmem]

/-- C5: `StockService.get_stock_codes` always fails: it passes the keyword
`limit` to `get_all_stock_codes`, whose only declared parameter is
`market_type`, so the `TypeError` is caught and re-raised as `Exception` for
every limit value and every index state. -/
theorem c5_get_stock_codes_always_raises (basicIndex : List (String × String)) (limit : ℕ) :
    stock_service_get_stock_codes basicIndex limit =
      Except.error "get stock codes failed: TypeError: unexpected keyword argument limit" := by
  rfl

/-- C6: `StockService.health_check` never reports `healthy`: the storage probe
calls `check_connection`, which `ElasticsearchStorage` does not define, so the
`AttributeError` is caught by the outer handler and the report is always the
error-shaped `unhealthy` one with no per-component labels — even when both the
storage ping and the scheduler construction would succeed. -/
theorem c6_health_check_always_unhealthy (esPingOk schedulerOk : Bool) :
    (stock_service_health_check esPingOk schedulerOk).status = "unhealthy" ∧
    (stock_service_health_check esPingOk schedulerOk).components = none := by
  exact ⟨rfl, rfl⟩

/-- C7: constructing a `HistoryCollectRequest` fails exactly when a date does
not parse as `YYYY-MM-DD`, or the start date is later than the end date, or
the adjustment flag is not one of `qfq`/`hfq`/`none`, or some supplied symbol
code is not a 6-digit numeric string; on success the object echoes both dates
unchanged. -/
theorem c7_history_request_validation (start_date end_date : String)
    (stock_codes : Option (List String)) (adjust_flag : String) :
    ((mkHistoryCollectRequest start_date end_date stock_codes adjust_flag).isOk = true ↔
      (is_valid_date start_date = true ∧ is_valid_date end_date = true ∧
       dateVal start_date ≤ dateVal end_date ∧
       adjust_flag ∈ ["qfq", "hfq", "none"] ∧
       ∀ c ∈ stock_codes.getD [], isValidStockCode c = true)) ∧
    (∀ r, mkHistoryCollectRequest start_date end_date stock_codes adjust_flag =
        Except.ok r → r.start_date = start_date ∧ r.end_date = end_date) := by
  constructor
  · unfold mkHistoryCollectRequest
    constructor
    · intro h
      split_ifs at h with h1 h2 h3 h4 h5
      all_goals try exact Bool.noConfusion h
      refine ⟨?_, ?_, by omega, h4, ?_⟩
      · revert h1; cases is_valid_date start_date <;> simp
      · revert h2; cases is_valid_date end_date <;> simp
      · intro c hc
        by_contra hbad
        exact h5 (List.any_eq_true.mpr ⟨c, hc, by
          revert hbad; cases isValidStockCode c <;> simp⟩)
    · rintro ⟨h1, h2, h3, h4, h5⟩
      rw [if_neg (by simp [h1]), if_neg (by simp [h2]), if_neg (by omega),
        if_neg (not_not.mpr h4), if_neg ?_]
      · rfl
      · intro hx
        obtain ⟨c, hc, hbad⟩ := List.any_eq_true.mp hx
        rw [h5 c hc] at hbad
        simp at hbad
  · intro r hr
    unfold mkHistoryCollectRequest at hr
    split_ifs at hr
    injection hr with h
    subst h
    exact ⟨rfl, rfl⟩

/-- C7 witness: a well-formed request is accepted and echoes its dates, and a
reversed date range is rejected. -/
theorem c7_witness :
    (mkHistoryCollectRequest "2025-08-17" "2025-09-17" (some ["000001"]) "qfq").isOk = true ∧
    (mkHistoryCollectRequest "2025-09-18" "2025-09-17" none "qfq").isOk = false := by
  constructor
  · exact (c7_history_request_validation "2025-08-17" "2025-09-17"
      (some ["000001"]) "qfq").1.mpr (by decide)
  · decide

/-- C9: `delete_daily_data` with no truthy filter condition refuses: it
returns `False` and leaves the index unchanged; with at least one condition
supplied it issues the delete and returns `True`, however many documents
matched. -/
theorem c9_delete_requires_a_filter (index : List DailyBar)
    (stock_code start_date end_date : Option String) :
    ((truthy stock_code = false ∧ truthy start_date = false ∧ truthy end_date = false) →
      delete_daily_data index stock_code start_date end_date = (index, false)) ∧
    ((truthy stock_code = true ∨ truthy start_date = true ∨ truthy end_date = true) →
      (delete_daily_data index stock_code start_date end_date).2 = true) := by
  constructor
  · rintro ⟨h1, h2, h3⟩
    unfold delete_daily_data
    rw [if_pos (by simp [h1, h2, h3])]
  · intro h
    unfold delete_daily_data
    rw [if_neg ?_]
    rcases h with h | h | h <;> simp [h]

/-- C9 witness: with no condition the call refuses on a one-document index;
with a symbol condition it deletes and reports `True` even though the matched
count may be anything. -/
theorem c9_witness :
    truthy (none : Option String) = false ∧
    delete_daily_data [priorBar] none none none = ([priorBar], false) ∧
    truthy (some "000001") = true ∧
    (delete_daily_data [priorBar] (some "000001") none none).2 = true := by
  refine ⟨rfl, ?_, rfl, ?_⟩
  · exact (c9_delete_requires_a_filter [priorBar] none none none).1 ⟨rfl, rfl, rfl⟩
  · exact (c9_delete_requires_a_filter [priorBar] (some "000001") none none).2 (Or.inl rfl)

/-! ### Counting lemmas for the backfill tallies -/

theorem countP_add_countP_not (p : α → Bool) (l : List α) :
    l.countP p + l.countP (fun a => !p a) = l.length := by
  induction l with
  | nil => rfl
  | cons a l ih =>
    simp only [List.countP_cons, List.length_cons]
    cases h : p a <;> simp [h] <;> omega

theorem batchStep_of_ok (fetch : String → SymbolOutcome) (codeOf mtOf : α → String)
    (st : ℕ × ℕ × List DailyBar) (b : α) (rows : List RawDailyRow)
    (hb : fetch (codeOf b) = SymbolOutcome.fetched rows) (hrows : rows.isEmpty = false) :
    batchStep fetch codeOf mtOf st b =
      (st.1 + 1, st.2.1, st.2.2 ++ process_history_data rows (codeOf b) (mtOf b)) := by
  simp [batchStep, hb, hrows]

theorem batchStep_of_fail (fetch : String → SymbolOutcome) (codeOf mtOf : α → String)
    (st : ℕ × ℕ × List DailyBar) (b : α)
    (hfail : outcomeOk (fetch (codeOf b)) = false) :
    batchStep fetch codeOf mtOf st b = (st.1, st.2.1 + 1, st.2.2) := by
  unfold batchStep
  cases hb : fetch (codeOf b) with
  | fetched rows =>
    have : rows.isEmpty = true := by simpa [outcomeOk, hb] using hfail
    simp [this]
  | empty => rfl
  | raised => rfl

theorem batchFold_counts (fetch : String → SymbolOutcome) (codeOf mtOf : α → String)
    (batch : List α) : ∀ (s f : ℕ) (bd : List DailyBar),
    ((batch.foldl (batchStep fetch codeOf mtOf) (s, f, bd)).1 =
      s + batch.countP (fun x => outcomeOk (fetch (codeOf x)))) ∧
    ((batch.foldl (batchStep fetch codeOf mtOf) (s, f, bd)).2.1 =
      f + batch.countP (fun x => !outcomeOk (fetch (codeOf x)))) := by
  induction batch with
  | nil => intro s f bd; simp
  | cons b bs ih =>
    intro s f bd
    rw [List.foldl_cons]
    cases hok : outcomeOk (fetch (codeOf b)) with
    | false =>
      rw [batchStep_of_fail fetch codeOf mtOf (s, f, bd) b hok]
      obtain ⟨ih1, ih2⟩ := ih s (f + 1) bd
      constructor
      · rw [ih1, List.countP_cons]
        simp [hok]
      · rw [ih2, List.countP_cons]
        simp [hok]
        omega
    | true =>
      obtain ⟨rows, hb, hrows⟩ :
          ∃ rows, fetch (codeOf b) = SymbolOutcome.fetched rows ∧ rows.isEmpty = false := by
        cases hb : fetch (codeOf b) with
        | fetched rows =>
          refine ⟨rows, rfl, ?_⟩
          simpa [outcomeOk, hb] using hok
        | empty => simp [outcomeOk, hb] at hok
        | raised => simp [outcomeOk, hb] at hok
      rw [batchStep_of_ok fetch codeOf mtOf (s, f, bd) b rows hb hrows]
      obtain ⟨ih1, ih2⟩ := ih (s + 1) f _
      constructor
      · rw [ih1, List.countP_cons]
        simp [hok]
        omega
      · rw [ih2, List.countP_cons]
        simp [hok]

theorem runBatch_eq (fetch : String → SymbolOutcome) (save : List DailyBar → Bool)
    (codeOf mtOf : α → String) (batch : List α) (acc : ℕ × ℕ) :
    runBatch fetch save codeOf mtOf batch acc =
      (acc.1 + batch.countP (fun x => outcomeOk (fetch (codeOf x))),
       acc.2 + batch.countP (fun x => !outcomeOk (fetch (codeOf x)))) := by
  obtain ⟨h1, h2⟩ := batchFold_counts fetch codeOf mtOf batch acc.1 acc.2 []
  unfold runBatch
  exact Prod.ext h1 h2

theorem chunksFold_counts (fetch : String → SymbolOutcome) (save : List DailyBar → Bool)
    (codeOf mtOf : α → String) (cs : List (List α)) : ∀ (s f : ℕ),
    cs.foldl (fun acc batch => runBatch fetch save codeOf mtOf batch acc) (s, f) =
      (s + cs.flatten.countP (fun x => outcomeOk (fetch (codeOf x))),
       f + cs.flatten.countP (fun x => !outcomeOk (fetch (codeOf x)))) := by
  induction cs with
  | nil => intro s f; simp
  | cons c cs ih =>
    intro s f
    rw [List.foldl_cons, runBatch_eq, ih]
    simp [List.countP_append]
    constructor <;> omega

theorem chunksGo_join (n : ℕ) (hn : 0 < n) :
    ∀ (fuel : ℕ) (l : List α), l.length ≤ fuel → (chunksGo n fuel l).flatten = l := by
  intro fuel
  induction fuel with
  | zero =>
    intro l hl
    match l with
    | [] => rfl
    | x :: xs => simp at hl
  | succ fuel ih =>
    intro l hl
    match l with
    | [] => rfl
    | x :: xs =>
      show (List.take n (x :: xs) :: chunksGo n fuel (List.drop n (x :: xs))).flatten = x :: xs
      rw [List.flatten_cons]
      rw [ih (List.drop n (x :: xs)) (by simp only [List.length_drop, List.length_cons] at hl ⊢; omega)]
      exact List.take_append_drop n (x :: xs)

theorem chunks_join (n : ℕ) (hn : 0 < n) (l : List α) : (chunks n l).flatten = l :=
  chunksGo_join n hn l.length l le_rfl

/-- `collect_history_data_by_codes` as a closed-form tally. -/
theorem by_codes_tally_eq (fetch : String → SymbolOutcome) (save : List DailyBar → Bool)
    (start_date end_date : String) (codes : List String) :
    collect_history_data_by_codes fetch save start_date end_date codes =
      ⟨codes.countP (fun c => outcomeOk (fetch c)),
       codes.countP (fun c => !outcomeOk (fetch c)), codes.length⟩ := by
  unfold collect_history_data_by_codes
  by_cases h : codes.isEmpty
  · rw [List.isEmpty_iff.mp h]; rfl
  · simp only [h, if_false]
    rw [chunksFold_counts fetch save id marketOfCode]
    rw [chunks_join 50 (by omega)]
    simp [id]

/-- `collect_all_history_data` as a closed-form tally. -/
theorem all_history_tally_eq (fetch : String → SymbolOutcome) (save : List DailyBar → Bool)
    (start_date end_date : String) (stock_list : List (String × String)) :
    collect_all_history_data fetch save start_date end_date stock_list =
      ⟨stock_list.countP (fun x => outcomeOk (fetch x.1)),
       stock_list.countP (fun x => !outcomeOk (fetch x.1)), stock_list.length⟩ := by
  unfold collect_all_history_data
  by_cases h : stock_list.isEmpty
  · rw [List.isEmpty_iff.mp h]; rfl
  · simp only [h, if_false]
    rw [chunksFold_counts fetch save Prod.fst Prod.snd]
    rw [chunks_join 50 (by omega)]
    simp

/-- C8: `collect_history_data_by_codes` tallies at symbol granularity: `total`
is the number of codes; a symbol counts as success exactly when its fetch
returned a non-empty result, and as failed when the fetch returned nothing,
came back empty, or raised; and the tally is independent of whether the
per-batch saves succeed. -/
theorem c8_by_codes_tally (fetch : String → SymbolOutcome) (save : List DailyBar → Bool)
    (start_date end_date : String) (codes : List String) :
    (collect_history_data_by_codes fetch save start_date end_date codes).total =
      codes.length ∧
    (collect_history_data_by_codes fetch save start_date end_date codes).success =
      codes.countP (fun c => outcomeOk (fetch c)) ∧
    (collect_history_data_by_codes fetch save start_date end_date codes).failed =
      codes.countP (fun c => !outcomeOk (fetch c)) ∧
    ∀ save2, collect_history_data_by_codes fetch save2 start_date end_date codes =
      collect_history_data_by_codes fetch save start_date end_date codes := by
  refine ⟨?_, ?_, ?_, ?_⟩
  · rw [by_codes_tally_eq]
  · rw [by_codes_tally_eq]
  · rw [by_codes_tally_eq]
  · intro save2
    rw [by_codes_tally_eq, by_codes_tally_eq]

/-- C10: in both history-backfill entry points the returned tally satisfies
`success + failed = total` for every fetch/save outcome pattern. -/
theorem c10_tally_invariant (fetch : String → SymbolOutcome) (save : List DailyBar → Bool)
    (start_date end_date : String) (codes : List String)
    (stock_list : List (String × String)) :
    (collect_history_data_by_codes fetch save start_date end_date codes).success +
      (collect_history_data_by_codes fetch save start_date end_date codes).failed =
      (collect_history_data_by_codes fetch save start_date end_date codes).total ∧
    (collect_all_history_data fetch save start_date end_date stock_list).success +
      (collect_all_history_data fetch save start_date end_date stock_list).failed =
      (collect_all_history_data fetch save start_date end_date stock_list).total := by
  constructor
  · rw [by_codes_tally_eq]
    exact countP_add_countP_not _ codes
  · rw [all_history_tally_eq]
    exact countP_add_countP_not _ stock_list

/-! ### Previous-close chaining lemmas -/

theorem processRows_map_date (sc mt : String) :
    ∀ (l : List RawDailyRow) (prev : ℤ),
      (processRows sc mt l prev).map (fun b => b.date) = l.map (fun r => r.date)
  | [], _ => rfl
  | r :: rs, prev => by
    simp only [processRows, List.map_cons, rowToBar]
    exact congrArg _ (processRows_map_date sc mt rs _)

theorem processRows_length (sc mt : String) (l : List RawDailyRow) (prev : ℤ) :
    (processRows sc mt l prev).length = l.length := by
  have h := congrArg List.length (processRows_map_date sc mt l prev)
  simpa using h

theorem processRows_getD (sc mt : String) :
    ∀ (l : List RawDailyRow) (prev : ℤ) (i : ℕ), i < l.length →
      ((processRows sc mt l prev).getD i dummyBar).prev_close_price =
        (if i = 0 then prev
         else ((processRows sc mt l prev).getD (i - 1) dummyBar).close_price) := by
  intro l
  induction l with
  | nil => intro prev i hi; simp at hi
  | cons r rs ih =>
    intro prev i hi
    match i with
    | 0 => simp [processRows, rowToBar]
    | j + 1 =>
      have hj : j < rs.length := by simpa using hi
      have ihj := ih (rowToBar sc mt prev r).close_price j hj
      simp only [processRows, List.getD_cons_succ]
      rw [ihj]
      match j with
      | 0 => simp [processRows]
      | k + 1 => simp [processRows]

theorem processRows_chain (sc mt : String) (l : List RawDailyRow) (prev : ℤ)
    (hl : l.Chain' rowDateLe) :
    (processRows sc mt l prev).Chain' (fun a b => strLe a.date b.date = true) := by
  have hmap := processRows_map_date sc mt l prev
  apply (List.chain'_map (fun b : DailyBar => b.date)
    (R := fun x y : String => strLe x y = true)).mp
  rw [hmap]
  exact (List.chain'_map (fun r : RawDailyRow => r.date)
    (R := fun x y : String => strLe x y = true)).mpr hl

/-- C4: on a raw daily-row sequence in which every row converts,
`process_history_data` produces one record per row, in ascending date order,
with the first record's previous close 0 and every later record's previous
close equal to the immediately preceding record's (×100-scaled) close. -/
theorem c4_prev_close_chaining (rows : List RawDailyRow) (sc mt : String) (i : ℕ)
    (hi : i < (process_history_data rows sc mt).length) :
    (process_history_data rows sc mt).length = rows.length ∧
    (process_history_data rows sc mt).Chain' (fun a b => strLe a.date b.date = true) ∧
    ((process_history_data rows sc mt).getD i dummyBar).prev_close_price =
      (if i = 0 then 0
       else ((process_history_data rows sc mt).getD (i - 1) dummyBar).close_price) := by
  unfold process_history_data at hi ⊢
  refine ⟨?_, ?_, ?_⟩
  · rw [processRows_length, List.length_insertionSort]
  · exact processRows_chain sc mt _ 0
      ((List.sorted_insertionSort rowDateLe rows).chain')
  · apply processRows_getD
    rw [processRows_length] at hi
    exact hi

/-- C4 witness: the spec's three-row example (closes `10.00, 10.50, 9.80`)
satisfies the hypothesis at `i = 2` and the chaining conclusion. -/
theorem c4_witness :
    (process_history_data exRows "000001" "SZ").length = exRows.length ∧
    (process_history_data exRows "000001" "SZ").Chain'
      (fun a b => strLe a.date b.date = true) ∧
    ((process_history_data exRows "000001" "SZ").getD 2 dummyBar).prev_close_price =
      (if 2 = 0 then 0
       else ((process_history_data exRows "000001" "SZ").getD 1 dummyBar).close_price) :=
  c4_prev_close_chaining exRows "000001" "SZ" 2 (by decide)

end StockProject
